import Mathlib

/-
  Verification of the conversational workflow core of the line-fitting-room
  repository: the Redis-backed user-state store (two revisions:
  src/src/services/userStateService.ts, called StoreV1 below, and the
  refactored service in src/unnamed/part_005, called StoreV2), and the two
  flow coordinators built on top of it (src/src/services/flowManagerService.ts,
  namespace FlowManager, and
  src/src/services/flow/flowOrchestratorService.ts together with its text and
  image handlers, namespace FlowOrchestrator).

  The store is modelled per user: each of a user's four Redis keys
  (session `user:state:{userId}`, lock `user:lock:{userId}[:{operation}]`,
  pending `user:pending:{userId}`, result `user:synthesis:{userId}` resp.
  `user:state:synthesis_result:{userId}`) is a field holding an optional
  value together with its remaining TTL in seconds.  Values written through
  the typed service API are always members of the state enum, so session
  values are modelled as `UserState` rather than raw strings.
-/

/-- The user-state enum of the refactored service (USER_STATES in
src/unnamed/part_005); the flow services dispatch on exactly these values. -/
inductive UserState
  | idle
  | passiveAwaitingCharacter
  | passiveAwaitingClothing
  | generatingImage
  | passiveAwaitingResultCheckCharacter
  | passiveAwaitingResultCheckClothing
  | activeAwaitingImageType
deriving DecidableEq, Repr

/-- Status field of a stored synthesis result. -/
inductive SynthesisStatus
  | processing
  | completed
  | failed
deriving DecidableEq, Repr

/-- SynthesisResult record (same shape in both service revisions). -/
structure SynthesisResult where
  status : SynthesisStatus
  imagePath : Option String
  errorMessage : Option String
  timestamp : Nat
deriving DecidableEq, Repr

/-- The per-user slice of Redis: each key is an optional value paired with
its remaining TTL in seconds. -/
structure Redis where
  session : Option (UserState × Nat)
  lock : Option (String × Nat)
  pending : Option (String × Nat)
  result : Option (SynthesisResult × Nat)
deriving DecidableEq, Repr

/-- Store operations recorded by the coordinator models, in source order:
result-record writes, session writes (unconditional set and compare-and-set),
and the invocation of the external composition call. -/
inductive SynthOp
  | writeResult (r : SynthesisResult)
  | setState (st : UserState)
  | casState (expected target : UserState) (ok : Bool)
  | composeCall
deriving DecidableEq, Repr

/-- JavaScript truthiness of an optional string (`undefined`, `null` and the
empty string are falsy). -/
def truthyStr : Option String → Bool
  | none => false
  | some s => !s.isEmpty

namespace StoreV2

/- src/unnamed/part_005: the refactored UserStateService. -/

/-- SYNTHESIS_TTL = 1800 seconds; also used for session writes. -/
def SYNTHESIS_TTL : Nat := 1800

/-- LOCK_TTL = 120 seconds. -/
def LOCK_TTL : Nat := 120

/-- PENDING_TTL = 300 seconds. -/
def PENDING_TTL : Nat := 300

/-- setUserState: unconditional SET with EX SYNTHESIS_TTL. -/
def setUserState (s : Redis) (st : UserState) : Redis :=
  { s with session := some (st, SYNTHESIS_TTL) }

/-- getUserState: GET, absent key defaults to idle. -/
def getUserState (s : Redis) : UserState :=
  match s.session with
  | none => UserState.idle
  | some (st, _) => st

/-- getUserState at the level of the raw Redis read outcome: part_005 has no
try/catch around the read, so a read error propagates to the caller. -/
def getUserStateOutcome (readOutcome : Except String (Option UserState)) :
    Except String UserState :=
  match readOutcome with
  | Except.error e => Except.error e
  | Except.ok st? => Except.ok (st?.getD UserState.idle)

/-- transitionUserState: the Lua script succeeds when
`current == expected or (current == false and expected == 'idle')`, writing
the new state with EX SYNTHESIS_TTL; otherwise it leaves the key alone. -/
def transitionUserState (s : Redis) (expected newState : UserState) :
    Bool × Redis :=
  let current : Option UserState := s.session.map Prod.fst
  if current = some expected ∨ (current = none ∧ expected = UserState.idle) then
    (true, { s with session := some (newState, SYNTHESIS_TTL) })
  else
    (false, s)

/-- OperationResult shape returned by part_005's executeWithLock. -/
structure OperationResult (T : Type) where
  success : Bool
  data : Option T
  error : Option String
deriving DecidableEq, Repr

/-- executeWithLock of part_005.  The lock acquire (SET NX PX) happens inside
the try block and the finally block unconditionally deletes the lock key, so
the delete runs on the contention early-return as well, not only after a run
of `fn`.  `fn` is a state transformer that may throw; it also reports the
store operations it performed, which executeWithLock passes through. -/
def executeWithLock {T : Type} (s : Redis) (now : Nat)
    (fn : Redis → Except String T × Redis × List SynthOp) :
    OperationResult T × Redis × List SynthOp :=
  match s.lock with
  | some _ =>
      ({ success := false, data := none, error := some "Operation in progress" },
       { s with lock := none }, [])
  | none =>
      let sLocked := { s with lock := some (toString now, LOCK_TTL) }
      match fn sLocked with
      | (Except.ok v, s2, tr) =>
          ({ success := true, data := some v, error := none },
           { s2 with lock := none }, tr)
      | (Except.error e, s2, tr) =>
          ({ success := false, data := none, error := some e },
           { s2 with lock := none }, tr)

/-- setSynthesisResult: SET with EX SYNTHESIS_TTL. -/
def setSynthesisResult (s : Redis) (r : SynthesisResult) : Redis :=
  { s with result := some (r, SYNTHESIS_TTL) }

/-- getSynthesisResult: GET, absent key gives null. -/
def getSynthesisResult (s : Redis) : Option SynthesisResult :=
  s.result.map Prod.fst

/-- clearSynthesisResult: DEL. -/
def clearSynthesisResult (s : Redis) : Redis :=
  { s with result := none }

/-- clearPendingImage: DEL. -/
def clearPendingImage (s : Redis) : Redis :=
  { s with pending := none }

/-- clearAllUserData without exclude patterns: SCAN `*userId*` and DEL every
match.  All four per-user keys contain the userId, so all are deleted. -/
def clearAllUserData (_s : Redis) : Redis :=
  { session := none, lock := none, pending := none, result := none }

end StoreV2

namespace StoreV1

/- src/src/services/userStateService.ts: the earlier UserStateService. -/

/-- STATE_TIMEOUT = 30 * 60 seconds. -/
def STATE_TIMEOUT : Nat := 1800

/-- LOCK_TIMEOUT = 2 * 60 seconds. -/
def LOCK_TIMEOUT : Nat := 120

/-- setUserState: unconditional SET with EX STATE_TIMEOUT. -/
def setUserState (s : Redis) (st : UserState) : Redis :=
  { s with session := some (st, STATE_TIMEOUT) }

/-- getUserState at the level of the raw Redis read outcome: the catch block
returns idle on a read error, and `state || IDLE` turns an absent key into
idle; a stored state is returned as is. -/
def getUserStateOutcome (readOutcome : Except String (Option UserState)) :
    UserState :=
  match readOutcome with
  | Except.error _ => UserState.idle
  | Except.ok none => UserState.idle
  | Except.ok (some st) => st

/-- transitionUserState: the Lua script replaces an absent value by 'idle'
(`if current == false then current = 'idle' end`) and then compares with the
expected value, writing the new state with EX STATE_TIMEOUT on a match. -/
def transitionUserState (s : Redis) (expected newState : UserState) :
    Bool × Redis :=
  let current : UserState := (s.session.map Prod.fst).getD UserState.idle
  if current = expected then
    (true, { s with session := some (newState, STATE_TIMEOUT) })
  else
    (false, s)

/-- acquireLock: SET NX EX LOCK_TIMEOUT; fails fast when the key exists. -/
def acquireLock (s : Redis) (operation : String) : Bool × Redis :=
  match s.lock with
  | some _ => (false, s)
  | none => (true, { s with lock := some (operation, LOCK_TIMEOUT) })

/-- releaseLock: idempotent DEL of the lock key. -/
def releaseLock (s : Redis) : Redis :=
  { s with lock := none }

/-- Result shape returned by this revision's executeWithLock. -/
structure LockOutcome (T : Type) where
  success : Bool
  result : Option T
  error : Option String
deriving DecidableEq, Repr

/-- executeWithLock of userStateService.ts: acquire happens before the
try/finally, so the contention early-return leaves the lock key untouched;
after a successful acquire, the finally block releases on both the normal
and the thrown-error exit of `fn`. -/
def executeWithLock {T : Type} (s : Redis) (operation : String)
    (fn : Redis → Except String T × Redis) : LockOutcome T × Redis :=
  let acq := acquireLock s operation
  if acq.1 then
    match fn acq.2 with
    | (Except.ok v, s2) =>
        ({ success := true, result := some v, error := none }, releaseLock s2)
    | (Except.error e, s2) =>
        ({ success := false, result := none, error := some e }, releaseLock s2)
  else
    ({ success := false, result := none,
       error := some "Operation already in progress, please wait" }, acq.2)

/-- clearAllUserData: DEL of exactly the state, lock and pending keys (the
synthesis-result key `user:state:synthesis_result:{userId}` is a different
key and is not among them). -/
def clearAllUserData (s : Redis) : Redis :=
  { s with session := none, lock := none, pending := none }

end StoreV1

/-- Modelled from the spec: the compareAndSet operation as §4.1 words it —
"if the stored value equals `expected` (or is absent and `expected` denotes
the default/initial value), write `newValue` and refresh TTL, returning true;
otherwise leave the store untouched and return false".  Spec-side definition,
to be compared with the two source transitionUserState implementations. -/
def specCompareAndSet (s : Redis) (expected newValue : UserState) (ttl : Nat) :
    Bool × Redis :=
  if s.session.map Prod.fst = some expected ∨
      (s.session = none ∧ expected = UserState.idle) then
    (true, { s with session := some (newValue, ttl) })
  else
    (false, s)

/-- Reply intents produced by the flow handlers (one constructor per
ReplyService factory used by the modelled handlers). -/
inductive Reply
  | welcome
  | requestCharacter
  | requestClothing
  | processing
  | stillProcessing
  | synthesisComplete
  | synthesisResultImage (url : String)
  | postSynthesisOptions
  | characterCleared
  | clothingCleared
  | allCleared
  | requestReUploadCharacter
  | requestReUploadClothing
  | expectingImageError
  | errorReply (msg : String)
deriving DecidableEq, Repr

/-- Parsed text commands (PassiveCommand).  The parser file
(commandParserService.ts) is not part of the snapshot; the constructors are
the members the handlers in src/ dispatch on, plus `unknown` for every text
that parses to none of them. -/
inductive PassiveCommand
  | startFlow
  | clearCharacter
  | clearClothing
  | clearAll
  | devInit
  | regenerate
  | reuploadCharacter
  | reuploadClothing
  | checkResult
  | unknown
deriving DecidableEq, Repr

/-- Which of the two inputs most recently completed the pair
("character" | "clothing" in the source). -/
inductive TriggerType
  | character
  | clothing
deriving DecidableEq, Repr

/-- The per-user slice of the image cache collaborator. -/
structure ImageCache where
  character : Option String
  clothing : Option String
  generated : Option String
deriving DecidableEq, Repr

/-- imageCacheService.clearAll for one user. -/
def ImageCache.clearAll (_c : ImageCache) : ImageCache :=
  { character := none, clothing := none, generated := none }

/-- imageCacheService.clearCharacter for one user. -/
def ImageCache.clearCharacter (c : ImageCache) : ImageCache :=
  { c with character := none }

/-- The mutable state a flow handler touches: the user's Redis slice and the
user's image cache. -/
structure World where
  redis : Redis
  images : ImageCache
deriving DecidableEq, Repr

/-- Target state after a synthesis finishes, chosen from the trigger
(`lastUploadedType === "character" ? ..._CHECK_CHARACTER : ..._CHECK_CLOTHING`,
identical in both coordinator files). -/
def targetState : TriggerType → UserState
  | TriggerType.character => UserState.passiveAwaitingResultCheckCharacter
  | TriggerType.clothing => UserState.passiveAwaitingResultCheckClothing

namespace FlowManager

/- src/src/services/flowManagerService.ts, over the part_005 store. -/

/-- startPassiveFlow: compareAndSet idle -> passive_awaiting_character; on
success reply with the character prompt, otherwise with an error reply.  The
boolean is the `transitioned` flag of the source. -/
def startPassiveFlow (w : World) : Bool × Reply × World :=
  let t := StoreV2.transitionUserState w.redis UserState.idle
      UserState.passiveAwaitingCharacter
  if t.1 then
    (true, Reply.requestCharacter, { w with redis := t.2 })
  else
    (false, Reply.errorReply "無法開始流程，請稍後再試", { w with redis := t.2 })

/-- n interleaved handler runs of startPassiveFlow for the same user, each
already dispatched from an observed idle state (the redelivery scenario);
the compareAndSet is the serialization point, so the runs are sequenced. -/
def startPassiveFlowRuns : Nat → World → List (Bool × Reply) × World
  | 0, w => ([], w)
  | n + 1, w =>
      let r := startPassiveFlow w
      let rest := startPassiveFlowRuns n r.2.2
      ((r.1, r.2.1) :: rest.1, rest.2)

/-- clearCharacterImage: clears the cached character image and replies. -/
def clearCharacterImage (w : World) : List Reply × World :=
  ([Reply.characterCleared], { w with images := w.images.clearCharacter })

/-- handleClearAllCommand: clears the image cache, deletes every per-user
Redis key (clearAllUserData), sets the state to passive_awaiting_character
and sends the cleared + character-prompt replies. -/
def handleClearAllCommand (w : World) : List Reply × World :=
  ([Reply.characterCleared, Reply.requestCharacter],
   { redis := StoreV2.setUserState (StoreV2.clearAllUserData w.redis)
       UserState.passiveAwaitingCharacter,
     images := w.images.clearAll })

/-- handleAwaitingClothingTextMessage: in passive_awaiting_clothing, only
CLEAR_CHARACTER (clear + restart) and CLEAR_ALL act; every other command —
CHECK_RESULT included — falls to the default reminder reply. -/
def handleAwaitingClothingTextMessage (command : PassiveCommand) (w : World) :
    List Reply × World :=
  match command with
  | PassiveCommand.clearCharacter =>
      let c := clearCharacterImage w
      let st := startPassiveFlow c.2
      (c.1 ++ [st.2.1], st.2.2)
  | PassiveCommand.clearAll => handleClearAllCommand w
  | _ => ([Reply.requestClothing], w)

/-- The body run by performBackgroundSynthesis under the "synthesis" lock:
write TaskResult processing, invoke the external call, then write the
completed or failed TaskResult and compareAndSet
generating_image -> result state; the catch block swallows the error, so the
body never throws.  The operation list records the store writes and the
external call in source order. -/
def synthesisBody (composeOutcome : Except String String)
    (lastUploadedType : TriggerType) (now : Nat) (s : Redis) :
    Except String Unit × Redis × List SynthOp :=
  let processingRec : SynthesisResult :=
    { status := SynthesisStatus.processing, imagePath := none,
      errorMessage := none, timestamp := now }
  let s1 := StoreV2.setSynthesisResult s processingRec
  match composeOutcome with
  | Except.ok generatedImagePath =>
      let completedRec : SynthesisResult :=
        { status := SynthesisStatus.completed,
          imagePath := some generatedImagePath,
          errorMessage := none, timestamp := now }
      let s2 := StoreV2.setSynthesisResult s1 completedRec
      let t := StoreV2.transitionUserState s2 UserState.generatingImage
          (targetState lastUploadedType)
      (Except.ok (), t.2,
       [SynthOp.writeResult processingRec, SynthOp.composeCall,
        SynthOp.writeResult completedRec,
        SynthOp.casState UserState.generatingImage
          (targetState lastUploadedType) t.1])
  | Except.error e =>
      let failedRec : SynthesisResult :=
        { status := SynthesisStatus.failed, imagePath := none,
          errorMessage := some e, timestamp := now }
      let s2 := StoreV2.setSynthesisResult s1 failedRec
      let t := StoreV2.transitionUserState s2 UserState.generatingImage
          (targetState lastUploadedType)
      (Except.ok (), t.2,
       [SynthOp.writeResult processingRec, SynthOp.composeCall,
        SynthOp.writeResult failedRec,
        SynthOp.casState UserState.generatingImage
          (targetState lastUploadedType) t.1])

/-- performBackgroundSynthesis: the body above, guarded by executeWithLock on
the (user, "synthesis") key. -/
def performBackgroundSynthesis (composeOutcome : Except String String)
    (lastUploadedType : TriggerType) (now : Nat) (s : Redis) :
    StoreV2.OperationResult Unit × Redis × List SynthOp :=
  StoreV2.executeWithLock s now (synthesisBody composeOutcome lastUploadedType now)

/-- checkSynthesisResult: still-processing reply while generating_image;
on a completed result with a truthy imagePath deliver the three result
replies, clear the TaskResult and set the state to idle; on a failed result
reply with an error and do the same reset; otherwise report that no
synthesis is active.  `urlOf` models convertPathToUrl. -/
def checkSynthesisResult (urlOf : String → String) (s : Redis) :
    List Reply × Redis :=
  let currentState := StoreV2.getUserState s
  let synthesisResult := StoreV2.getSynthesisResult s
  if currentState = UserState.generatingImage then
    ([Reply.stillProcessing], s)
  else if synthesisResult.map (fun r => r.status) = some SynthesisStatus.completed
      ∧ truthyStr (synthesisResult.bind (fun r => r.imagePath)) = true then
    ([Reply.synthesisComplete,
      Reply.synthesisResultImage
        (urlOf ((synthesisResult.bind (fun r => r.imagePath)).getD "")),
      Reply.postSynthesisOptions],
     StoreV2.setUserState (StoreV2.clearSynthesisResult s) UserState.idle)
  else if synthesisResult.map (fun r => r.status) = some SynthesisStatus.failed then
    ([Reply.errorReply "圖片合成失敗，請重新嘗試"],
     StoreV2.setUserState (StoreV2.clearSynthesisResult s) UserState.idle)
  else
    ([Reply.errorReply "沒有進行中的合成作業"], s)

end FlowManager

namespace FlowOrchestrator

/- src/src/services/flow/flowOrchestratorService.ts and its text-message
handler, over the part_005 store. -/

/-- startPassiveFlow of the orchestrator: an unconditional setUserState to
passive_awaiting_character followed by the character prompt — no
compareAndSet is involved. -/
def startPassiveFlow (w : World) : Reply × World :=
  (Reply.requestCharacter,
   { w with redis := StoreV2.setUserState w.redis UserState.passiveAwaitingCharacter })

/-- n redelivered handler runs of the orchestrator's startPassiveFlow. -/
def startPassiveFlowRuns : Nat → World → List Reply × World
  | 0, w => ([], w)
  | n + 1, w =>
      let r := startPassiveFlow w
      let rest := startPassiveFlowRuns n r.2
      (r.1 :: rest.1, rest.2)

/-- clearCharacterImage (orchestrator copy, identical behavior). -/
def clearCharacterImage (w : World) : List Reply × World :=
  ([Reply.characterCleared], { w with images := w.images.clearCharacter })

/-- handleClearAllCommand of the orchestrator: clears the image cache and
sets the state to idle; no Redis key is deleted. -/
def handleClearAllCommand (w : World) : List Reply × World :=
  ([Reply.allCleared],
   { redis := StoreV2.setUserState w.redis UserState.idle,
     images := w.images.clearAll })

/-- handleAwaitingClothingTextMessage of the refactored text handler: only
CLEAR_CHARACTER and CLEAR_ALL act; every other command — CHECK_RESULT
included — falls to the default expecting-image error reply. -/
def handleAwaitingClothingTextMessage (command : PassiveCommand) (w : World) :
    List Reply × World :=
  match command with
  | PassiveCommand.clearCharacter =>
      let c := clearCharacterImage w
      let st := startPassiveFlow c.2
      (c.1 ++ [st.1], st.2)
  | PassiveCommand.clearAll => handleClearAllCommand w
  | _ => ([Reply.expectingImageError], w)

/-- The shared catch block of the orchestrator's synthesis body: write the
failed TaskResult, then reset the state to idle with an unconditional set. -/
def synthesisFailure (now : Nat) (e : String) (s : Redis) :
    Redis × List SynthOp :=
  let failedRec : SynthesisResult :=
    { status := SynthesisStatus.failed, imagePath := none,
      errorMessage := some e, timestamp := now }
  let s1 := StoreV2.setSynthesisResult s failedRec
  (StoreV2.setUserState s1 UserState.idle,
   [SynthOp.writeResult failedRec, SynthOp.setState UserState.idle])

/-- The body run by the orchestrator's performBackgroundSynthesis under the
"synthesis" lock: fetch both image paths (throwing into the catch block when
one is missing), invoke the external call with no prior TaskResult write, and
on success write the completed TaskResult and compareAndSet
generating_image -> result state; the boolean is the success flag the body
returns. -/
def synthesisBody (characterPath clothingPath : Option String)
    (composeOutcome : Except String String) (triggerType : TriggerType)
    (now : Nat) (s : Redis) : Except String Bool × Redis × List SynthOp :=
  match characterPath, clothingPath with
  | some _, some _ =>
      match composeOutcome with
      | Except.ok generatedImagePath =>
          let completedRec : SynthesisResult :=
            { status := SynthesisStatus.completed,
              imagePath := some generatedImagePath,
              errorMessage := none, timestamp := now }
          let s1 := StoreV2.setSynthesisResult s completedRec
          let t := StoreV2.transitionUserState s1 UserState.generatingImage
              (targetState triggerType)
          (Except.ok true, t.2,
           [SynthOp.composeCall, SynthOp.writeResult completedRec,
            SynthOp.casState UserState.generatingImage
              (targetState triggerType) t.1])
      | Except.error e =>
          let f := synthesisFailure now e s
          (Except.ok false, f.1, SynthOp.composeCall :: f.2)
  | _, _ =>
      let f := synthesisFailure now "Missing required images for synthesis" s
      (Except.ok false, f.1, f.2)

/-- performBackgroundSynthesis of the orchestrator: the body above, guarded
by executeWithLock on the (user, "synthesis") key. -/
def performBackgroundSynthesis (characterPath clothingPath : Option String)
    (composeOutcome : Except String String) (triggerType : TriggerType)
    (now : Nat) (s : Redis) :
    StoreV2.OperationResult Bool × Redis × List SynthOp :=
  StoreV2.executeWithLock s now
    (synthesisBody characterPath clothingPath composeOutcome triggerType now)

/-- checkSynthesisResult of the orchestrator: on a completed result with a
truthy imagePath it needs a URL for the generated image (throwing when it is
unavailable), delivers the three result replies, sets the state to idle and
clears the TaskResult; on a failed result it replies with the stored error
message and does the same reset; otherwise it replies still-processing. -/
def checkSynthesisResult (generatedUrl : Option String) (s : Redis) :
    Except String (List Reply × Redis) :=
  let result := StoreV2.getSynthesisResult s
  if result.map (fun r => r.status) = some SynthesisStatus.completed
      ∧ truthyStr (result.bind (fun r => r.imagePath)) = true then
    match generatedUrl with
    | none => Except.error "Generated image URL not available"
    | some imageUrl =>
        Except.ok
          ([Reply.synthesisComplete, Reply.synthesisResultImage imageUrl,
            Reply.postSynthesisOptions],
           StoreV2.clearSynthesisResult (StoreV2.setUserState s UserState.idle))
  else if result.map (fun r => r.status) = some SynthesisStatus.failed then
    let msg :=
      match result.bind (fun r => r.errorMessage) with
      | some m => if m.isEmpty then "合成失敗" else m
      | none => "合成失敗"
    Except.ok
      ([Reply.errorReply msg],
       StoreV2.clearSynthesisResult (StoreV2.setUserState s UserState.idle))
  else
    Except.ok ([Reply.processing], s)

end FlowOrchestrator

/-- An operation in the trace that writes a TaskResult with status
processing. -/
def isProcessingWrite : SynthOp → Bool
  | SynthOp.writeResult r => r.status == SynthesisStatus.processing
  | _ => false

/-- A store in which another holder currently owns the lock key. -/
def lockedStore : Redis :=
  { session := some (UserState.generatingImage, 1800),
    lock := some ("1730000000000", 120),
    pending := none,
    result := none }

/-- A store with no keys set (a completely fresh user). -/
def emptyStore : Redis :=
  { session := none, lock := none, pending := none, result := none }

/-- A lock-free store whose session is in generating_image. -/
def processingStore : Redis :=
  { session := some (UserState.generatingImage, 1800),
    lock := none, pending := none, result := none }

/-- A completely fresh world: no Redis keys, no cached images. -/
def freshWorld : World :=
  { redis := emptyStore,
    images := { character := none, clothing := none, generated := none } }

/-- A world mid-flow: generating_image session, held lock, pending image,
stored completed result and all three cached images. -/
def busyWorld : World :=
  { redis :=
      { session := some (UserState.generatingImage, 1800),
        lock := some ("synthesis", 120),
        pending := some ("img123", 300),
        result := some ({ status := SynthesisStatus.completed,
                          imagePath := some "/images/x.png",
                          errorMessage := none, timestamp := 5 }, 1800) },
    images := { character := some "c.png", clothing := some "cl.png",
                generated := some "g.png" } }

/-- A lock-free store in a result-ready state holding a completed synthesis
result with an image path. -/
def resultReadyStore : Redis :=
  { session := some (UserState.passiveAwaitingResultCheckClothing, 1800),
    lock := none, pending := none,
    result := some ({ status := SynthesisStatus.completed,
                      imagePath := some "/images/out.png",
                      errorMessage := none, timestamp := 42 }, 1800) }

/-- Claim C1: for every key, expected value and new value, compareAndSet
(transitionUserState) returns true and writes the new value with a refreshed
TTL exactly when the stored value equals the expected value, or the key is
absent and the expected value is the default state idle; otherwise it returns
false and leaves the store unchanged.  Both store revisions implement exactly
the spec-side compareAndSet with their 1800-second session TTL. -/
theorem transitionUserState_matches_specCompareAndSet
    (s : Redis) (expected newState : UserState) :
    StoreV1.transitionUserState s expected newState
      = specCompareAndSet s expected newState 1800
    ∧ StoreV2.transitionUserState s expected newState
      = specCompareAndSet s expected newState 1800 := by
  unfold StoreV1.transitionUserState StoreV2.transitionUserState specCompareAndSet
  rcases hs : s.session with _ | ⟨st, ttl⟩
  · by_cases hexp : expected = UserState.idle <;>
      simp [hs, hexp, StoreV1.STATE_TIMEOUT, StoreV2.SYNTHESIS_TTL]
    intro hidle
    exact absurd hidle.symm hexp
  · by_cases hst : st = expected <;>
      simp [hs, hst, StoreV1.STATE_TIMEOUT, StoreV2.SYNTHESIS_TTL]

/-- Claim C2 (bug witness): invoking part_005's executeWithLock while another
holder owns the lock key returns success false and does not run `fn` (the
session is untouched and no store operation of `fn` is recorded), but the
finally block deletes the concurrent holder's lock key — the store is
modified and the at-most-one-holder invariant's basis is destroyed.  The
earlier revision (StoreV1) leaves the holder's lock in place on the same
input. -/
theorem executeWithLockV2_contention_deletes_holder_lock :
    (StoreV2.executeWithLock lockedStore 999
        (fun s => (Except.ok true, StoreV2.setUserState s UserState.idle,
                   [SynthOp.setState UserState.idle]))).1.success = false
    ∧ (StoreV2.executeWithLock lockedStore 999
        (fun s => (Except.ok true, StoreV2.setUserState s UserState.idle,
                   [SynthOp.setState UserState.idle]))).2.1.session
        = lockedStore.session
    ∧ (StoreV2.executeWithLock lockedStore 999
        (fun s => (Except.ok true, StoreV2.setUserState s UserState.idle,
                   [SynthOp.setState UserState.idle]))).2.2 = []
    ∧ (StoreV2.executeWithLock lockedStore 999
        (fun s => (Except.ok true, StoreV2.setUserState s UserState.idle,
                   [SynthOp.setState UserState.idle]))).2.1.lock = none
    ∧ lockedStore.lock ≠ none
    ∧ (StoreV1.executeWithLock lockedStore "synthesis"
        (fun s => (Except.ok true, s))).2.lock = lockedStore.lock := by
  decide

/-- Claim C10: getUserState is total and enum-valued: it returns the stored
state when the session key holds one and idle when the key is absent; the
revision that catches read errors (StoreV1) also returns idle when the
underlying read fails instead of propagating the error. -/
theorem getUserState_total_defaults_idle
    (st : UserState) (st? : Option UserState) (e : String) :
    StoreV1.getUserStateOutcome (Except.ok (some st)) = st
    ∧ StoreV1.getUserStateOutcome (Except.ok none) = UserState.idle
    ∧ StoreV1.getUserStateOutcome (Except.error e) = UserState.idle
    ∧ StoreV2.getUserStateOutcome (Except.ok st?)
        = Except.ok (st?.getD UserState.idle) := by
  refine ⟨rfl, rfl, rfl, ?_⟩
  cases st? <;> rfl

/-- Helper: once the session is in passive_awaiting_character, every further
startPassiveFlow run of flowManagerService fails its compareAndSet, emits the
error reply and leaves the world untouched. -/
theorem startPassiveFlowRuns_after_start (n : Nat) :
    ∀ (w : World) (t : Nat),
      w.redis.session = some (UserState.passiveAwaitingCharacter, t) →
      FlowManager.startPassiveFlowRuns n w
        = (List.replicate n (false, Reply.errorReply "無法開始流程，請稍後再試"), w) := by
  induction n with
  | zero => intro w t h; rfl
  | succ k ih =>
      intro w t h
      have hfail : FlowManager.startPassiveFlow w
          = (false, Reply.errorReply "無法開始流程，請稍後再試", w) := by
        unfold FlowManager.startPassiveFlow StoreV2.transitionUserState
        simp [h]
      simp only [FlowManager.startPassiveFlowRuns, hfail, ih w t h,
        List.replicate]

/-- Helper: every redelivered run of the orchestrator's startPassiveFlow
emits the character prompt again, unconditionally. -/
theorem orchestratorRuns_all_prompt (m : Nat) : ∀ (v : World),
    (FlowOrchestrator.startPassiveFlowRuns m v).1
      = List.replicate m Reply.requestCharacter := by
  induction m with
  | zero => intro v; rfl
  | succ k ih =>
      intro v
      simp [FlowOrchestrator.startPassiveFlowRuns,
        FlowOrchestrator.startPassiveFlow, ih, List.replicate]

/-- Claim C4 (amended): in flowManagerService the START transition is applied
via compareAndSet with expected idle — of N = n+1 redelivered START events
for a fresh (idle) user the first compareAndSet succeeds and emits the
character prompt, the other n observe a false compareAndSet, leave the world
completely unchanged and emit only an error reply; in flowOrchestratorService
startPassiveFlow writes the state unconditionally, so every redelivered run
re-emits the prompt side effect. -/
theorem startPassiveFlow_exactly_once (w : World) (n : Nat)
    (hidle : StoreV2.getUserState w.redis = UserState.idle) :
    FlowManager.startPassiveFlowRuns (n + 1) w
      = ((true, Reply.requestCharacter)
          :: List.replicate n (false, Reply.errorReply "無法開始流程，請稍後再試"),
        { w with redis := { w.redis with
            session := some (UserState.passiveAwaitingCharacter, 1800) } })
    ∧ ∀ (m : Nat) (v : World),
        (FlowOrchestrator.startPassiveFlowRuns m v).1
          = List.replicate m Reply.requestCharacter := by
  constructor
  · have hsucc : FlowManager.startPassiveFlow w
        = (true, Reply.requestCharacter,
           { w with redis := { w.redis with
               session := some (UserState.passiveAwaitingCharacter, 1800) } }) := by
      unfold FlowManager.startPassiveFlow StoreV2.transitionUserState
      rcases hs : w.redis.session with _ | ⟨st, t⟩
      · simp [hs, StoreV2.SYNTHESIS_TTL]
      · have hst : st = UserState.idle := by
          simpa [StoreV2.getUserState, hs] using hidle
        simp [hs, hst, StoreV2.SYNTHESIS_TTL]
    simp only [FlowManager.startPassiveFlowRuns, hsucc]
    rw [startPassiveFlowRuns_after_start n _ 1800 (by simp)]
  · intro m v
    exact orchestratorRuns_all_prompt m v

/-- Witness for the C4 theorem at a fresh user and N = 3. -/
theorem startPassiveFlow_exactly_once_witness :
    StoreV2.getUserState freshWorld.redis = UserState.idle
    ∧ (FlowManager.startPassiveFlowRuns 3 freshWorld
        = ((true, Reply.requestCharacter)
            :: List.replicate 2 (false, Reply.errorReply "無法開始流程，請稍後再試"),
          { freshWorld with redis := { freshWorld.redis with
              session := some (UserState.passiveAwaitingCharacter, 1800) } })
       ∧ ∀ (m : Nat) (v : World),
          (FlowOrchestrator.startPassiveFlowRuns m v).1
            = List.replicate m Reply.requestCharacter) :=
  ⟨rfl, startPassiveFlow_exactly_once freshWorld 2 rfl⟩

/-- Claim C4 (counterexample to the claim as stated): two redelivered START
runs through the orchestrator's startPassiveFlow for the same fresh user both
emit the character-prompt side effect — there is no compareAndSet, no run
observes a false compareAndSet, and the non-winning run re-applies the side
effect. -/
theorem orchestrator_start_reapplies_side_effect_cex :
    (FlowOrchestrator.startPassiveFlowRuns 2 freshWorld).1
      = [Reply.requestCharacter, Reply.requestCharacter]
    ∧ (FlowManager.startPassiveFlowRuns 2 freshWorld).1
      = [(true, Reply.requestCharacter),
         (false, Reply.errorReply "無法開始流程，請稍後再試")] := by
  decide

/-- Claim C5 (amended): flowManagerService's CLEAR_ALL handler deletes the
user's session, lock, pending and result keys, sets the state to
passive_awaiting_character and clears the image cache; the orchestrator's
CLEAR_ALL handler only clears the image cache and sets the session to idle,
leaving the lock, pending and result keys in place. -/
theorem clearAllCommand_behavior (w : World) :
    FlowManager.handleClearAllCommand w
      = ([Reply.characterCleared, Reply.requestCharacter],
         { redis := { session := some (UserState.passiveAwaitingCharacter, 1800),
                      lock := none, pending := none, result := none },
           images := { character := none, clothing := none, generated := none } })
    ∧ FlowOrchestrator.handleClearAllCommand w
      = ([Reply.allCleared],
         { redis := { w.redis with session := some (UserState.idle, 1800) },
           images := { character := none, clothing := none, generated := none } }) := by
  constructor <;> rfl

/-- Claim C5 (counterexample to the claim as stated): on a world whose lock,
pending and result keys are all set, the orchestrator's CLEAR_ALL handler
deletes none of them and resets the state to idle, not to
passive_awaiting_character. -/
theorem orchestrator_clear_all_keeps_keys_cex :
    (FlowOrchestrator.handleClearAllCommand busyWorld).2.redis.result ≠ none
    ∧ (FlowOrchestrator.handleClearAllCommand busyWorld).2.redis.pending ≠ none
    ∧ (FlowOrchestrator.handleClearAllCommand busyWorld).2.redis.lock ≠ none
    ∧ StoreV2.getUserState (FlowOrchestrator.handleClearAllCommand busyWorld).2.redis
        = UserState.idle
    ∧ UserState.idle ≠ UserState.passiveAwaitingCharacter := by
  decide

/-- Claim C9: in passive_awaiting_clothing, a CHECK_RESULT text command falls
to the default branch of both awaiting-clothing handlers: the world (session,
lock, pending, result and image cache) is returned unchanged — no state write
of any kind — and the only output is the reminder reply. -/
theorem awaitingClothing_checkResult_is_noop (w : World) :
    FlowManager.handleAwaitingClothingTextMessage PassiveCommand.checkResult w
      = ([Reply.requestClothing], w)
    ∧ FlowOrchestrator.handleAwaitingClothingTextMessage PassiveCommand.checkResult w
      = ([Reply.expectingImageError], w) := by
  constructor <;> rfl

/-- Claim C3 (amended): when the external composition call throws during a
background synthesis started with trigger t on a lock-free session in
generating_image, the flowManagerService coordinator writes the failed
TaskResult carrying the original error message and compareAndSets
generating_image to the result-ready state for t, while the
flowOrchestratorService coordinator writes the same failed TaskResult but
resets the session to idle; in neither coordinator is the session left in
generating_image. -/
theorem backgroundSynthesis_failure_states
    (s : Redis) (msg : String) (trig : TriggerType) (now : Nat)
    (cp clp : String)
    (hlock : s.lock = none)
    (hstate : StoreV2.getUserState s = UserState.generatingImage) :
    StoreV2.getSynthesisResult
        (FlowManager.performBackgroundSynthesis (Except.error msg) trig now s).2.1
      = some { status := SynthesisStatus.failed, imagePath := none,
               errorMessage := some msg, timestamp := now }
    ∧ StoreV2.getUserState
        (FlowManager.performBackgroundSynthesis (Except.error msg) trig now s).2.1
      = targetState trig
    ∧ StoreV2.getSynthesisResult
        (FlowOrchestrator.performBackgroundSynthesis (some cp) (some clp)
          (Except.error msg) trig now s).2.1
      = some { status := SynthesisStatus.failed, imagePath := none,
               errorMessage := some msg, timestamp := now }
    ∧ StoreV2.getUserState
        (FlowOrchestrator.performBackgroundSynthesis (some cp) (some clp)
          (Except.error msg) trig now s).2.1
      = UserState.idle
    ∧ targetState trig ≠ UserState.generatingImage
    ∧ UserState.idle ≠ UserState.generatingImage := by
  obtain ⟨sess, lk, pend, res⟩ := s
  have hlk : lk = none := hlock
  subst hlk
  rcases hs : sess with _ | ⟨st, t⟩
  · rw [hs] at hstate
    simp [StoreV2.getUserState] at hstate
  · rw [hs] at hstate
    have hst : st = UserState.generatingImage := hstate
    subst hst
    subst hs
    cases trig <;> exact ⟨rfl, rfl, rfl, rfl, by decide, by decide⟩

/-- Witness for the C3 theorem at a concrete lock-free generating_image
store. -/
theorem backgroundSynthesis_failure_states_witness :
    processingStore.lock = none
    ∧ StoreV2.getUserState processingStore = UserState.generatingImage
    ∧ (StoreV2.getSynthesisResult
          (FlowManager.performBackgroundSynthesis (Except.error "boom")
            TriggerType.clothing 7 processingStore).2.1
        = some { status := SynthesisStatus.failed, imagePath := none,
                 errorMessage := some "boom", timestamp := 7 }
       ∧ StoreV2.getUserState
          (FlowManager.performBackgroundSynthesis (Except.error "boom")
            TriggerType.clothing 7 processingStore).2.1
        = targetState TriggerType.clothing
       ∧ StoreV2.getSynthesisResult
          (FlowOrchestrator.performBackgroundSynthesis (some "c.png") (some "cl.png")
            (Except.error "boom") TriggerType.clothing 7 processingStore).2.1
        = some { status := SynthesisStatus.failed, imagePath := none,
                 errorMessage := some "boom", timestamp := 7 }
       ∧ StoreV2.getUserState
          (FlowOrchestrator.performBackgroundSynthesis (some "c.png") (some "cl.png")
            (Except.error "boom") TriggerType.clothing 7 processingStore).2.1
        = UserState.idle
       ∧ targetState TriggerType.clothing ≠ UserState.generatingImage
       ∧ UserState.idle ≠ UserState.generatingImage) :=
  ⟨rfl, rfl,
   backgroundSynthesis_failure_states processingStore "boom" TriggerType.clothing 7
     "c.png" "cl.png" rfl rfl⟩

/-- Claim C3 (counterexample to the claim as stated): on a lock-free
generating_image session, a failing composition call in the orchestrator
coordinator leaves the session in idle, which is neither of the result-ready
states the claim requires. -/
theorem orchestrator_failure_resets_to_idle_cex :
    StoreV2.getUserState
        (FlowOrchestrator.performBackgroundSynthesis (some "c.png") (some "cl.png")
          (Except.error "AI service failed") TriggerType.character 1000
          processingStore).2.1
      = UserState.idle
    ∧ UserState.idle ≠ targetState TriggerType.character
    ∧ UserState.idle ≠ targetState TriggerType.clothing := by
  decide

/-- Claim C6: when the earlier revision's executeWithLock does acquire the
lock (the key was free), the lock key is deleted on every exit path of `fn`
(both the normal return and the thrown-error path are covered since `fn` is
arbitrary), and a fresh acquire on the resulting store succeeds; moreover a
second acquisition attempt while the lock is held yields exactly one success
and one failure. -/
theorem executeWithLockV1_releases_and_mutex
    (s : Redis) (op op2 : String) (fn : Redis → Except String Bool × Redis)
    (hfree : s.lock = none) :
    (StoreV1.executeWithLock s op fn).2.lock = none
    ∧ (StoreV1.acquireLock (StoreV1.executeWithLock s op fn).2 op2).1 = true
    ∧ (StoreV1.acquireLock s op).1 = true
    ∧ (StoreV1.acquireLock (StoreV1.acquireLock s op).2 op2).1 = false := by
  have hacq : StoreV1.acquireLock s op
      = (true, { s with lock := some (op, StoreV1.LOCK_TIMEOUT) }) := by
    unfold StoreV1.acquireLock
    rw [hfree]
  have hrel : (StoreV1.executeWithLock s op fn).2.lock = none := by
    unfold StoreV1.executeWithLock
    rw [hacq]
    cases hf : fn { s with lock := some (op, StoreV1.LOCK_TIMEOUT) } with
    | mk er s2 => cases er <;> simp [hf, StoreV1.releaseLock]
  refine ⟨hrel, ?_, ?_, ?_⟩
  · simp [StoreV1.acquireLock, hrel]
  · rw [hacq]
  · rw [hacq]
    simp [StoreV1.acquireLock]

/-- Witness for the C6 theorem at a concrete free store with a trivial
body. -/
theorem executeWithLockV1_releases_and_mutex_witness :
    emptyStore.lock = none
    ∧ ((StoreV1.executeWithLock emptyStore "synthesis"
          (fun t => (Except.ok true, t))).2.lock = none
       ∧ (StoreV1.acquireLock
            (StoreV1.executeWithLock emptyStore "synthesis"
              (fun t => (Except.ok true, t))).2 "synthesis").1 = true
       ∧ (StoreV1.acquireLock emptyStore "synthesis").1 = true
       ∧ (StoreV1.acquireLock
            (StoreV1.acquireLock emptyStore "synthesis").2 "synthesis").1
          = false) :=
  ⟨rfl, executeWithLockV1_releases_and_mutex emptyStore "synthesis" "synthesis"
    (fun t => (Except.ok true, t)) rfl⟩

/-- Claim C7 (amended): on a lock-free store the flowManagerService
coordinator's first two store-relevant operations are the TaskResult
processing write followed by the external composition call, so a processing
record is in place before the call; the orchestrator coordinator's run
contains no processing write at all. -/
theorem processing_record_before_compose
    (outcome : Except String String) (trig : TriggerType) (now : Nat)
    (s : Redis) (cp clp : String) (hlock : s.lock = none) :
    (FlowManager.performBackgroundSynthesis outcome trig now s).2.2.take 2
      = [SynthOp.writeResult
           { status := SynthesisStatus.processing, imagePath := none,
             errorMessage := none, timestamp := now },
         SynthOp.composeCall]
    ∧ (FlowOrchestrator.performBackgroundSynthesis (some cp) (some clp)
         outcome trig now s).2.2.filter isProcessingWrite = [] := by
  obtain ⟨sess, lk, pend, res⟩ := s
  have hlk : lk = none := hlock
  subst hlk
  cases outcome <;> exact ⟨rfl, rfl⟩

/-- Witness for the C7 theorem at a concrete lock-free store. -/
theorem processing_record_before_compose_witness :
    processingStore.lock = none
    ∧ ((FlowManager.performBackgroundSynthesis (Except.ok "gen.png")
          TriggerType.character 1000 processingStore).2.2.take 2
        = [SynthOp.writeResult
             { status := SynthesisStatus.processing, imagePath := none,
               errorMessage := none, timestamp := 1000 },
           SynthOp.composeCall]
       ∧ (FlowOrchestrator.performBackgroundSynthesis (some "c.png")
            (some "cl.png") (Except.ok "gen.png") TriggerType.character 1000
            processingStore).2.2.filter isProcessingWrite = []) :=
  ⟨rfl, processing_record_before_compose (Except.ok "gen.png")
    TriggerType.character 1000 processingStore "c.png" "cl.png" rfl⟩

/-- Claim C7 (counterexample to the claim as stated): a successful
orchestrator run on a lock-free generating_image store produces the trace
composition call, completed write, compareAndSet — the external call is the
first operation and no TaskResult write (in particular no processing write)
precedes it. -/
theorem orchestrator_no_processing_write_cex :
    (FlowOrchestrator.performBackgroundSynthesis (some "c.png") (some "cl.png")
        (Except.ok "gen.png") TriggerType.character 1000 processingStore).2.2
      = [SynthOp.composeCall,
         SynthOp.writeResult
           { status := SynthesisStatus.completed, imagePath := some "gen.png",
             errorMessage := none, timestamp := 1000 },
         SynthOp.casState UserState.generatingImage
           UserState.passiveAwaitingResultCheckCharacter true]
    ∧ (FlowOrchestrator.performBackgroundSynthesis (some "c.png") (some "cl.png")
        (Except.ok "gen.png") TriggerType.character 1000 processingStore).2.2.head?
      = some SynthOp.composeCall := by
  decide

/-- Claim C8: for a user in a result-ready state whose stored TaskResult is
completed with a non-empty image path, CHECK_RESULT delivers the three result
replies, clears the TaskResult and sets the session to idle — in the
flowManagerService handler, and likewise in the orchestrator handler when the
generated image URL is available. -/
theorem checkResult_completed_delivers_and_resets
    (s : Redis) (p : String) (em : Option String) (ts : Nat)
    (urlOf : String → String) (u : String)
    (hstate : StoreV2.getUserState s = UserState.passiveAwaitingResultCheckCharacter
              ∨ StoreV2.getUserState s = UserState.passiveAwaitingResultCheckClothing)
    (hres : StoreV2.getSynthesisResult s
      = some { status := SynthesisStatus.completed, imagePath := some p,
               errorMessage := em, timestamp := ts })
    (hp : p ≠ "") :
    FlowManager.checkSynthesisResult urlOf s
      = ([Reply.synthesisComplete, Reply.synthesisResultImage (urlOf p),
          Reply.postSynthesisOptions],
         { s with result := none, session := some (UserState.idle, 1800) })
    ∧ FlowOrchestrator.checkSynthesisResult (some u) s
      = Except.ok
          ([Reply.synthesisComplete, Reply.synthesisResultImage u,
            Reply.postSynthesisOptions],
           { s with result := none, session := some (UserState.idle, 1800) })
    ∧ StoreV2.getUserState
        { s with result := none, session := some (UserState.idle, 1800) }
      = UserState.idle := by
  obtain ⟨sess, lk, pend, res⟩ := s
  rcases hr : res with _ | ⟨rec, rttl⟩
  · rw [hr] at hres
    simp [StoreV2.getSynthesisResult] at hres
  · rw [hr] at hres
    have hrec : rec = { status := SynthesisStatus.completed, imagePath := some p,
                        errorMessage := em, timestamp := ts } := by
      simpa [StoreV2.getSynthesisResult] using hres
    subst hrec
    subst hr
    rcases hs : sess with _ | ⟨st, sttl⟩
    · rw [hs] at hstate
      simp [StoreV2.getUserState] at hstate
    · rw [hs] at hstate
      have hpe : p.isEmpty = false := by
        cases he : p.isEmpty
        · rfl
        · exact absurd ((String.isEmpty_iff p).mp he) hp
      rcases hstate with hst | hst <;> (
        replace hst : st = _ := hst
        subst hst
        subst hs
        refine ⟨?_, ?_, rfl⟩ <;>
          simp [FlowManager.checkSynthesisResult,
            FlowOrchestrator.checkSynthesisResult, StoreV2.getUserState,
            StoreV2.getSynthesisResult, StoreV2.setUserState,
            StoreV2.clearSynthesisResult, StoreV2.SYNTHESIS_TTL,
            truthyStr, hpe])

/-- Witness for the C8 theorem at a concrete result-ready store. -/
theorem checkResult_completed_delivers_and_resets_witness :
    (StoreV2.getUserState resultReadyStore
        = UserState.passiveAwaitingResultCheckCharacter
      ∨ StoreV2.getUserState resultReadyStore
        = UserState.passiveAwaitingResultCheckClothing)
    ∧ StoreV2.getSynthesisResult resultReadyStore
      = some { status := SynthesisStatus.completed,
               imagePath := some "/images/out.png",
               errorMessage := none, timestamp := 42 }
    ∧ "/images/out.png" ≠ ""
    ∧ (FlowManager.checkSynthesisResult (fun q => q) resultReadyStore
        = ([Reply.synthesisComplete,
            Reply.synthesisResultImage "/images/out.png",
            Reply.postSynthesisOptions],
           { resultReadyStore with result := none, session := some (UserState.idle, 1800) })
       ∧ FlowOrchestrator.checkSynthesisResult (some "http://h/out.png")
            resultReadyStore
        = Except.ok
            ([Reply.synthesisComplete,
              Reply.synthesisResultImage "http://h/out.png",
              Reply.postSynthesisOptions],
             { resultReadyStore with result := none, session := some (UserState.idle, 1800) })
       ∧ StoreV2.getUserState
            { resultReadyStore with result := none, session := some (UserState.idle, 1800) }
          = UserState.idle) :=
  ⟨Or.inr rfl, rfl, by decide,
   checkResult_completed_delivers_and_resets resultReadyStore "/images/out.png"
     none 42 (fun q => q) "http://h/out.png" (Or.inr rfl) rfl (by decide)⟩
